import Mathlib

/-!
# Verification of the Monitor110 market-intelligence pipeline

A shallow embedding of the decision pipeline of the Monitor110 backend
(retrieval → credibility filtering → deduplication → relevance guardrail →
orchestration), translated from the JavaScript services
`retrieval.js`, `credibility.js`, `deduplication.js`, `relevance.js` and the
route handler `routes/analyze.js`.

JavaScript numbers are modelled by `ℚ` (all scores in the pipeline are sums,
minima and quotients of small decimal constants), strings by `String`, and the
fallible per-term `RegExp` construction in retrieval by `Except`.
-/

set_option maxHeartbeats 1000000
set_option maxRecDepth 10000

namespace Monitor

/-! ## JavaScript string primitives -/

/-- `s.toLowerCase()` (ASCII; all corpus data and query constants here are ASCII). -/
def jsToLower (s : String) : String := String.map Char.toLower s

/-- `s.toUpperCase()` (ASCII). -/
def jsToUpper (s : String) : String := String.map Char.toUpper s

/-- A JS word character, the `\w` class: `[A-Za-z0-9_]`. -/
def isWordChar (c : Char) : Bool := c.isAlphanum || c.toNat = 95

/-- `needle` occurs as a contiguous run somewhere in `haystack`. -/
def infixTest (needle : List Char) : List Char → Bool
  | [] => needle.isEmpty
  | c :: rest => needle.isPrefixOf (c :: rest) || infixTest needle rest

/-- `haystack.includes(needle)` for strings. -/
def jsIncludes (haystack needle : String) : Bool :=
  infixTest needle.data haystack.data

/-- `s.split(/\s+/)` followed by a filter that removes short tokens.
`String.split` cuts at every whitespace character, so runs of whitespace
produce empty tokens; the length filters applied by every caller in the
source discard those, exactly as `/\s+/` never produces nonempty short
tokens that `split` would keep. -/
def splitWs (s : String) : List String := s.split Char.isWhitespace

/-- `text.replace(/[^\w\s]/g, '')`: delete every character that is neither a
word character nor whitespace. -/
def stripNonWord (s : String) : String :=
  String.mk (s.data.filter (fun c => isWordChar c || c.isWhitespace))

/-! ## Data model

A corpus article, as loaded from `financial-content.json`, plus the fields the
pipeline stages attach by object spread: `relevanceScore` (retrieval),
`credibility` (credibility scorer) and `deduplication` (deduplicator). -/

structure Credibility where
  score : ℚ
  tier : String
  sourceType : String
  explanation : String
deriving Repr, DecidableEq

structure DedupInfo where
  status : String
  reason : Option String
deriving Repr, DecidableEq

structure Article where
  id : String
  headline : String
  content : String
  source : String
  sourceType : String
  companies : List String
  sector : Option String := none
  timestamp : String := ""
  relevanceScore : ℚ := 0
  credibility : Option Credibility := none
  deduplication : Option DedupInfo := none
deriving Repr, DecidableEq

/-- `` `${article.headline} ${article.content}` `` -/
def articleText (a : Article) : String := a.headline ++ " " ++ a.content

/-- `article.credibility?.score || 0` -/
def credScore (a : Article) : ℚ := ((a.credibility.map Credibility.score).getD 0)

/-! ## Credibility service (`credibility.js`) -/

/-- `CREDIBILITY_SCORES`: base score keyed by source type. -/
def CREDIBILITY_SCORES : List (String × ℚ) :=
  [("official", 95/100),
   ("major_publication", 85/100),
   ("analyst", 75/100),
   ("social_media", 40/100),
   ("unknown", 30/100)]

/-- `SOURCE_ADJUSTMENTS`: per-source-name deltas. -/
def SOURCE_ADJUSTMENTS : List (String × ℚ) :=
  [("Bloomberg", 5/100),
   ("Reuters", 5/100),
   ("Financial Times", 5/100),
   ("Apple Investor Relations", 5/100),
   ("Microsoft Blog", 3/100),
   ("NVIDIA Investor Relations", 5/100),
   ("Tesla IR", 5/100),
   ("TechCrunch", -(10/100)),
   ("DigiTimes", -(15/100)),
   ("Electrek", -(5/100)),
   ("@elonmusk", 10/100),
   ("@mingchikuo", 5/100),
   ("Reddit r/teslamotors", -(10/100))]

/-- `table[key] || dflt`: property lookup with a default. Every value stored
in the two tables above is nonzero, so JS's falsy-`||` fallback coincides with
a lookup default. -/
def lookupD (table : List (String × ℚ)) (key : String) (dflt : ℚ) : ℚ :=
  ((table.find? (fun p => p.1 == key)).map Prod.snd).getD dflt

/-- `generateCredibilityExplanation(article, score, tier)` (the score and tier
arguments are unused by the source body). -/
def generateCredibilityExplanation (article : Article) : String :=
  if article.sourceType == "official" then
    "Official company source (" ++ article.source ++ ") - highest reliability"
  else if article.sourceType == "major_publication" then
    "Major financial publication (" ++ article.source ++ ") - professionally verified"
  else if article.sourceType == "analyst" then
    "Professional analyst research (" ++ article.source ++ ") - expert opinion"
  else if article.sourceType == "social_media" then
    "Social media source (" ++ article.source ++ ") - requires verification"
  else
    "Unclassified source - credibility uncertain"

/-- `assignCredibility(article)` -/
def assignCredibility (article : Article) : Article :=
  let baseScore := lookupD CREDIBILITY_SCORES article.sourceType (30/100)
  let adjustment := lookupD SOURCE_ADJUSTMENTS article.source 0
  let finalScore := min 1 (max (1/10) (baseScore + adjustment))
  let tier : String :=
    if finalScore ≥ 90/100 then "HIGH"
    else if finalScore ≥ 70/100 then "MEDIUM"
    else if finalScore ≥ 50/100 then "LOW"
    else "UNVERIFIED"
  { article with
    credibility := some
      { score := finalScore
        tier := tier
        sourceType := article.sourceType
        explanation := generateCredibilityExplanation article } }

/-- `filterByCredibility(articles, minScore)` -/
def filterByCredibility (articles : List Article) (minScore : ℚ) : List Article :=
  (articles.map assignCredibility).filter (fun a => decide (credScore a ≥ minScore))

/-- Stable insertion of an article into a list sorted by descending
credibility score: the new element goes before the first strictly smaller
score, after any equal scores already present. -/
def insertByCred (x : Article) : List Article → List Article
  | [] => [x]
  | y :: ys => if credScore x ≥ credScore y then x :: y :: ys else y :: insertByCred x ys

/-- `sortByCredibility(articles)` / the `[...articles].sort((a, b) =>
scoreB - scoreA)` in the deduplicator: a stable sort by descending
`credibility?.score || 0` (ECMAScript `Array.prototype.sort` is stable, and a
stable sort is uniquely determined by its comparator, so insertion sort is an
exact model). -/
def sortByCredibility : List Article → List Article
  | [] => []
  | x :: xs => insertByCred x (sortByCredibility xs)

/-! ## Deduplication service (`deduplication.js`) -/

/-- The token set built inside `jaccardSimilarity`:
`new Set(text.toLowerCase().replace(/[^\w\s]/g, '').split(/\s+/).filter(w => w.length > 2))`.
A JS `Set` retains only distinct members and Jaccard similarity only uses
sizes, so a `Finset` is an exact model. -/
def tokenSet (text : String) : Finset String :=
  ((splitWs (stripNonWord (jsToLower text))).filter (fun w => w.length > 2)).toFinset

/-- `jaccardSimilarity(text1, text2)` -/
def jaccardSimilarity (text1 text2 : String) : ℚ :=
  let words1 := tokenSet text1
  let words2 := tokenSet text2
  let inter := words1 ∩ words2
  let union := words1 ∪ words2
  if union.card = 0 then 0 else (inter.card : ℚ) / (union.card : ℚ)

/-- The article as tagged when kept by the deduplicator:
`{ ...article, deduplication: { status: 'unique' } }`. -/
def markUnique (a : Article) : Article :=
  { a with deduplication := some ⟨"unique", none⟩ }

/-- The article as tagged when dropped by the deduplicator. -/
def markDup (a : Article) : Article :=
  { a with deduplication := some ⟨"duplicate", some "Similar content already included"⟩ }

/-- `unique.some(kept => jaccardSimilarity(articleText, keptText) >= threshold)` -/
def isDupOf (threshold : ℚ) (a : Article) (kept : List Article) : Bool :=
  kept.any (fun k => decide (jaccardSimilarity (articleText a) (articleText k) ≥ threshold))

/-- The `for (const article of sorted)` loop of `deduplicateArticles`,
accumulating the `unique` and `duplicates` arrays. -/
def dedupLoop (threshold : ℚ) : List Article → List Article × List Article → List Article × List Article
  | [], acc => acc
  | a :: rest, (u, d) =>
    if isDupOf threshold a u then dedupLoop threshold rest (u, d ++ [markDup a])
    else dedupLoop threshold rest (u ++ [markUnique a], d)

/-- `deduplicateArticles(articles, threshold = 0.6)` returning
`{ unique, duplicates }` as a pair. -/
def deduplicateArticles (articles : List Article) (threshold : ℚ := 6/10) : List Article × List Article :=
  if articles.isEmpty then ([], [])
  else dedupLoop threshold (sortByCredibility articles) ([], [])

/-! ## Retrieval service (`retrieval.js`) -/

/-- Number of non-overlapping occurrences of the literal pattern `pat` in
`text`, scanning left to right — what `text.match(new RegExp(pat, 'g'))`
counts for a metacharacter-free pattern. -/
def countOcc (pat : List Char) (text : List Char) : Nat :=
  match text with
  | [] => 0
  | c :: rest =>
    if h : pat ≠ [] ∧ pat.isPrefixOf (c :: rest) then
      1 + countOcc pat ((c :: rest).drop pat.length)
    else countOcc pat rest
termination_by text.length
decreasing_by
  · simp only [List.length_drop, List.length_cons]
    have hp : 0 < pat.length := List.length_pos.mpr h.1
    omega
  · simp only [List.length_cons]
    omega

/-- State of the regex-pattern scanner: whether the position just scanned can
be quantified. -/
inductive RState where
  | start : RState
  | afterAtom : RState
  | afterQuant : RState
  | afterLazy : RState
deriving Repr, DecidableEq

/-- Modelled from the spec: the ECMAScript `RegExp` compiler invoked by
`new RegExp(term, 'gi')` in `retrieveRelevantContent` is a platform builtin,
not code of this repository. This models the slice of its pattern grammar the
claims exercise: a quantifier (`*`, `+`, `?`) must follow a repeatable atom
(otherwise compilation fails with "nothing to repeat"), a single lazy `?` may
follow a quantifier, and any other character counts as an atom. -/
def rstep (s : RState) (c : Char) : Option RState :=
  if c == '*' || c == '+' then
    match s with
    | RState.afterAtom => some RState.afterQuant
    | _ => none
  else if c == '?' then
    match s with
    | RState.afterAtom => some RState.afterQuant
    | RState.afterQuant => some RState.afterLazy
    | _ => none
  else some RState.afterAtom

/-- Whether `new RegExp(pat, 'gi')` compiles (for the modelled grammar slice). -/
def regexPatternOk (pat : String) : Bool :=
  (pat.data.foldl (fun st c => st.bind (fun s => rstep s c)) (some RState.start)).isSome

/-- `text.match(new RegExp(pat, 'gi'))?.length`, with the `SyntaxError` thrown
by `new RegExp` on an invalid pattern modelled as `Except.error`. The callers
pass already-lowercased text and lowercase terms, so the `i` flag is inert and
matching is literal counting. -/
def countRegexMatches (pat text : String) : Except String Nat :=
  if regexPatternOk pat then Except.ok (countOcc pat.data text.data) else Except.error pat

/-- `companyAliases` from `retrieveRelevantContent`. -/
def companyAliases : List (String × String) :=
  [("apple", "AAPL"), ("microsoft", "MSFT"), ("tesla", "TSLA"), ("nvidia", "NVDA"),
   ("google", "GOOGL"), ("amazon", "AMZN"), ("meta", "META"),
   ("reliance", "RELIANCE"), ("tata", "TATA"), ("tcs", "TCS"), ("infosys", "INFY"),
   ("hdfc", "HDFC"), ("icici", "ICICI"),
   ("byd", "BYD"), ("nio", "NIO"), ("rivian", "RIVN"), ("ola", "OLA"), ("ather", "ATHER"),
   ("bitcoin", "BTC"), ("ethereum", "ETH"), ("crypto", "CRYPTO"), ("blockchain", "BLOCKCHAIN"),
   ("rbi", "RBI"), ("sbi", "SBI"), ("bank", "BANKS"), ("banking", "BANKS"),
   ("interest", "BANKS"), ("repo", "RBI"), ("inflation", "BANKS"), ("fed", "FED"),
   ("credit", "BANKS"), ("loan", "BANKS"), ("jpmorgan", "JPM"),
   ("oil", "OIL"), ("crude", "CRUDE"), ("gold", "GOLD"), ("silver", "SILVER"),
   ("copper", "COPPER"), ("commodity", "COMMODITIES"), ("commodities", "COMMODITIES"),
   ("opec", "OIL"), ("gas", "GAS"),
   ("power", "POWER"), ("solar", "SOLAR"), ("renewable", "RENEWABLE"), ("wind", "WIND"),
   ("energy", "ENERGY"), ("hydrogen", "HYDROGEN"), ("battery", "BATTERY"),
   ("grid", "ENERGY"), ("adani", "ADANI"),
   ("pharma", "PHARMA"), ("healthcare", "HEALTHCARE"), ("drug", "PHARMA"),
   ("fda", "PHARMA"), ("biocon", "BIOCON"), ("sunpharma", "SUNPHARMA"),
   ("apollo", "APOLLO"), ("hospital", "HEALTHCARE"),
   ("ev", "EV"), ("automobile", "AUTO"), ("semiconductor", "CHIPS"),
   ("msft", "MSFT"), ("aapl", "AAPL"), ("tsla", "TSLA"), ("nvda", "NVDA"),
   ("googl", "GOOGL"), ("amzn", "AMZN"), ("btc", "BTC"), ("eth", "ETH")]

/-- One iteration of the scoring loop in `retrieveRelevantContent`:
`const matches = searchText.match(regex); if (matches) { ...
score += matches.length * 1; score += (headlineMatches?.length || 0) * 2; }`,
where `searchText` is the lowercased headline-plus-content. -/
def scoreStep (article : Article) (score : Nat) (term : String) : Except String Nat := do
  let fullMatches ← countRegexMatches term (jsToLower (articleText article))
  if fullMatches > 0 then do
    let headlineMatches ← countRegexMatches term (jsToLower article.headline)
    pure (score + fullMatches * 1 + headlineMatches * 2)
  else pure score

/-- The per-article scoring loop of `retrieveRelevantContent`:
`expandedTerms.forEach(term => ...)` accumulating `score` from `0`. -/
def scoreArticle (expandedTerms : List String) (article : Article) : Except String Nat :=
  expandedTerms.foldlM (scoreStep article) 0

/-- Stable insertion into a list sorted by descending relevance score. -/
def insertByRel (x : Article) : List Article → List Article
  | [] => [x]
  | y :: ys => if x.relevanceScore ≥ y.relevanceScore then x :: y :: ys else y :: insertByRel x ys

/-- `.sort((a, b) => b.relevanceScore - a.relevanceScore)`: stable sort by
descending relevance score. -/
def sortByRelevance : List Article → List Article
  | [] => []
  | x :: xs => insertByRel x (sortByRelevance xs)

structure RetrievalOptions where
  maxResults : Nat := 5
  companies : List String := []

/-- The query-normalization and alias-expansion prefix of
`retrieveRelevantContent`: lowercase, split on whitespace, keep terms longer
than 2 characters, and append the lowercased ticker for aliased company
names. -/
def expandQueryTerms (query : String) : List String :=
  let queryTerms := (splitWs (jsToLower query)).filter (fun term => term.length > 2)
  (queryTerms.map (fun term =>
    match (companyAliases.find? (fun p => p.1 == term)).map Prod.snd with
    | some ticker => [term, jsToLower ticker]
    | none => [term])).flatten

/-- `retrieveRelevantContent(query, options)`; the static corpus
(`financialData.articles`, loaded from a JSON file outside `src/`) is passed
explicitly. -/
def retrieveRelevantContent (corpus : List Article) (query : String)
    (options : RetrievalOptions) : Except String (List Article) := do
  let scoredArticles ← corpus.mapM (fun article => do
    let score ← scoreArticle (expandQueryTerms query) article
    let hasCompany := article.companies.any
      (fun c => (options.companies.map jsToUpper).contains c)
    let finalScore : ℚ :=
      if options.companies.isEmpty then (score : ℚ)
      else if hasCompany then (score : ℚ) else 0
    pure { article with relevanceScore := finalScore })
  pure ((sortByRelevance (scoredArticles.filter
    (fun a => decide (a.relevanceScore > 0)))).take options.maxResults)

/-! ## Relevance service (`relevance.js`) -/

/-- `KNOWN_ENTITIES`: canonical entity → surface-form variants, in source
(insertion) order — `Object.entries` enumerates string keys in that order. -/
def KNOWN_ENTITIES : List (String × List String) :=
  [("apple", ["apple", "aapl", "iphone", "ipad", "mac", "tim cook", "cupertino", "vision pro"]),
   ("microsoft", ["microsoft", "msft", "azure", "windows", "satya nadella", "copilot", "xbox"]),
   ("tesla", ["tesla", "tsla", "elon musk", "cybertruck", "fsd", "gigafactory", "supercharger"]),
   ("nvidia", ["nvidia", "nvda", "jensen huang", "gpu", "cuda", "h100", "h200", "geforce"]),
   ("google", ["google", "googl", "alphabet", "sundar pichai", "android", "chrome"]),
   ("amazon", ["amazon", "amzn", "aws", "bezos", "prime"]),
   ("meta", ["meta", "facebook", "zuckerberg", "instagram", "whatsapp"]),
   ("reliance", ["reliance", "jio", "mukesh ambani", "ril"]),
   ("tata", ["tata", "tata motors", "tata group", "ratan tata", "tcs", "tata power"]),
   ("infosys", ["infosys", "infy", "salil parekh", "infosys technologies"]),
   ("tcs", ["tcs", "tata consultancy", "tata consulting"]),
   ("hdfc", ["hdfc", "hdfc bank", "housing development finance"]),
   ("icici", ["icici", "icici bank"]),
   ("byd", ["byd", "build your dreams"]),
   ("nio", ["nio", "nio inc"]),
   ("rivian", ["rivian", "rivn"]),
   ("ola", ["ola", "ola electric", "bhavish aggarwal"]),
   ("ather", ["ather", "ather energy"]),
   ("bitcoin", ["bitcoin", "btc", "satoshi", "btc etf", "spot etf"]),
   ("ethereum", ["ethereum", "eth", "ether", "vitalik", "eth2"]),
   ("crypto", ["crypto", "cryptocurrency", "blockchain", "defi", "web3"]),
   ("banking", ["bank", "banking", "rbi", "interest rate", "repo rate", "monetary policy", "npa", "credit growth"]),
   ("rbi", ["rbi", "reserve bank", "repo", "monetary"]),
   ("sbi", ["sbi", "state bank"]),
   ("fed", ["fed", "federal reserve", "fomc", "powell"]),
   ("jpmorgan", ["jpmorgan", "jpm", "jp morgan", "jamie dimon"]),
   ("commodities", ["commodity", "commodities"]),
   ("oil", ["oil", "crude", "brent", "wti", "opec", "petroleum"]),
   ("gold", ["gold", "bullion", "precious metal"]),
   ("silver", ["silver"]),
   ("copper", ["copper"]),
   ("gas", ["natural gas", "lng", "gas prices"]),
   ("energy", ["energy", "power", "electricity", "grid", "utility"]),
   ("solar", ["solar", "photovoltaic", "pv"]),
   ("wind", ["wind power", "wind energy", "wind turbine"]),
   ("renewable", ["renewable", "clean energy", "green energy"]),
   ("hydrogen", ["hydrogen", "green hydrogen", "electrolyzer"]),
   ("adani", ["adani", "adani green", "adani power"]),
   ("healthcare", ["healthcare", "health care", "hospital", "medical"]),
   ("pharma", ["pharma", "pharmaceutical", "drug", "medicine", "fda"]),
   ("biocon", ["biocon"]),
   ("sunpharma", ["sun pharma", "sunpharma", "sun pharmaceutical"]),
   ("apollo", ["apollo", "apollo hospitals"]),
   ("drreddy", ["dr reddy", "drreddy", "dr. reddy"]),
   ("ev", ["ev", "electric vehicle", "electric car", "electric scooter", "battery", "charging"]),
   ("auto", ["auto", "automobile", "car sales", "vehicle", "automotive", "car market"]),
   ("ai", ["ai", "artificial intelligence", "machine learning", "llm", "chatgpt", "generative"]),
   ("cloud", ["cloud", "azure", "aws", "saas", "data center"]),
   ("earnings", ["earnings", "revenue", "profit", "q1", "q2", "q3", "q4", "quarterly", "fiscal"]),
   ("stock", ["stock", "shares", "market cap", "valuation", "price target", "ipo"]),
   ("markets", ["sensex", "nifty", "bse", "nse", "fii", "market", "index"]),
   ("india", ["india", "indian", "rupee", "inr", "sebi"]),
   ("finance", ["finance", "financial", "fintech", "payment"]),
   ("semiconductor", ["semiconductor", "chip", "chips", "tsmc", "foundry", "fab"])]

/-- `OFF_TOPIC_INDICATORS` -/
def OFF_TOPIC_INDICATORS : List String :=
  ["real estate", "property", "mortgage", "rent",
   "retail", "fashion", "luxury", "apparel", "clothing",
   "agriculture", "farming", "food", "crop",
   "movie", "cinema", "bollywood", "hollywood", "sports", "football", "cricket",
   "olympics", "youtube", "entertainment",
   "travel", "tourism", "hotel", "airline", "flight",
   "weather", "recipe", "cooking", "gaming", "video game"]

/-- `importantShortTerms` inside `extractQueryTerms`. -/
def importantShortTerms : List String := ["ev", "ai", "it", "uk", "us"]

/-- `extractQueryTerms(query)`. The source lowercases, replaces every
non-word, non-whitespace character by a space, splits on `/\s+/` and filters;
replacing a character by a space and then splitting on whitespace is the same
as splitting at that character directly, and the trailing filter discards the
empty tokens either reading produces. -/
def extractQueryTerms (query : String) : List String :=
  ((jsToLower query).split (fun c => c.isWhitespace || !isWordChar c)).filter
    (fun term => term.length > 2 || importantShortTerms.contains term)

structure OffTopicCheck where
  isOffTopic : Bool
  offTopicTerms : List String
deriving Repr, DecidableEq

/-- `detectOffTopicQuery(queryTerms, hasKnownEntity)` -/
def detectOffTopicQuery (queryTerms : List String) (hasKnownEntity : Bool) : OffTopicCheck :=
  if hasKnownEntity then { isOffTopic := false, offTopicTerms := [] }
  else
    let offTopicTerms := queryTerms.filter (fun term =>
      OFF_TOPIC_INDICATORS.any (fun indicator =>
        jsIncludes indicator term || jsIncludes term indicator))
    { isOffTopic := !offTopicTerms.isEmpty, offTopicTerms := offTopicTerms }

/-- The `variations.some(variation => ...)` body of `detectKnownEntities`:
exact term match, multi-word phrase containment in the joined query text, or
the guarded prefix matches. -/
def variationMatches (queryTerms : List String) (queryText : String) (variation : String) : Bool :=
  if queryTerms.contains variation then true
  else if jsIncludes variation " " && jsIncludes queryText variation then true
  else queryTerms.any (fun term =>
    if term.length < 4 then false
    else if variation.startsWith term ∧ (term.length : ℚ) ≥ (variation.length : ℚ) * (8/10) then true
    else if term.startsWith variation ∧ variation.length ≥ 4 then true
    else false)

structure EntityCheck where
  hasKnownEntity : Bool
  matchedEntities : List String
deriving Repr, DecidableEq

/-- `detectKnownEntities(queryTerms)` -/
def detectKnownEntities (queryTerms : List String) : EntityCheck :=
  let queryText := String.intercalate " " queryTerms
  let matchedEntities :=
    (KNOWN_ENTITIES.filter (fun p => p.2.any (variationMatches queryTerms queryText))).map Prod.fst
  { hasKnownEntity := !matchedEntities.isEmpty, matchedEntities := matchedEntities }

/-- `s.includes(t) || t.includes(s)` both ways, the overlap test used
throughout the relevance scorer. -/
def mutualIncludes (s t : String) : Bool := jsIncludes s t || jsIncludes t s

structure DocOverlap where
  hasDocumentOverlap : Bool
  overlappingCompanies : List String
deriving Repr, DecidableEq

/-- `overlappingCompanies.add(x)`: a JS `Set` keeps first-insertion order and
drops repeats. -/
def insertUniq (xs : List String) (x : String) : List String :=
  if xs.contains x then xs else xs ++ [x]

/-- `checkDocumentOverlap(queryTerms, documents)` -/
def checkDocumentOverlap (queryTerms : List String) (documents : List Article) : DocOverlap :=
  let step := fun (acc : List String) (doc : Article) =>
    let docCompanies := doc.companies.map jsToLower
    let acc := docCompanies.foldl (fun acc company =>
      if queryTerms.any (fun term => mutualIncludes company term)
      then insertUniq acc (jsToUpper company) else acc) acc
    let sector := jsToLower (doc.sector.getD "")
    if !sector.isEmpty && queryTerms.any (fun term => mutualIncludes sector term)
    then insertUniq acc (jsToUpper sector) else acc
  let overlapping := documents.foldl step []
  { hasDocumentOverlap := !overlapping.isEmpty, overlappingCompanies := overlapping }

/-- `calculateDocumentRelevance(queryTerms, document)` (the `matchedTerms`
counter in the source is written but never read, so it is omitted). -/
def calculateDocumentRelevance (queryTerms : List String) (document : Article) : ℚ :=
  let docText := jsToLower (articleText document)
  let docCompanies := document.companies.map jsToLower
  let sector := jsToLower (document.sector.getD "")
  let score := queryTerms.foldl (fun score term =>
    let score := if jsIncludes docText term then score + 3/10 else score
    let score := if docCompanies.any (fun c => mutualIncludes c term)
      then score + 4/10 else score
    let score := if !sector.isEmpty && mutualIncludes sector term
      then score + 3/10 else score
    KNOWN_ENTITIES.foldl (fun score p =>
      if p.2.any (fun v => mutualIncludes v term) &&
         (jsIncludes docText p.1 || docCompanies.any (fun c => jsIncludes c p.1))
      then score + 2/10 else score) score) 0
  if queryTerms.length > 0 then min 1 (score / (queryTerms.length : ℚ)) else 0

structure DocScore where
  id : String
  score : ℚ
deriving Repr, DecidableEq

structure RelevanceResult where
  isRelevant : Bool
  relevantDocCount : Nat
  totalDocCount : Nat
  averageRelevance : ℚ
  reason : String
  queryTerms : List String
  offTopicCheck : OffTopicCheck
  entityCheck : EntityCheck
  docOverlap : DocOverlap
  docScores : List DocScore
deriving Repr, DecidableEq

/-- `evaluateRelevance(query, documents)`. The empty-document early return of
the source omits the `totalDocCount`, `docOverlap` and `docScores` keys; here
they are `0`, the no-overlap value (which is what the guarding ternary
produced) and `[]`. -/
def evaluateRelevance (query : String) (documents : List Article) : RelevanceResult :=
  let queryTerms := extractQueryTerms query
  let entityCheck := detectKnownEntities queryTerms
  let offTopicCheck := detectOffTopicQuery queryTerms entityCheck.hasKnownEntity
  let docOverlap :=
    if documents.length > 0 then checkDocumentOverlap queryTerms documents
    else { hasDocumentOverlap := false, overlappingCompanies := [] }
  if documents.isEmpty then
    { isRelevant := false
      relevantDocCount := 0
      totalDocCount := 0
      averageRelevance := 0
      reason := "No documents retrieved"
      queryTerms := queryTerms
      offTopicCheck := offTopicCheck
      entityCheck := entityCheck
      docOverlap := docOverlap
      docScores := [] }
  else
    let docScores := documents.map (fun doc =>
      ({ id := doc.id, score := calculateDocumentRelevance queryTerms doc } : DocScore))
    let relevantDocs := docScores.filter (fun d => decide (d.score > 3/10))
    let averageScore := (docScores.map DocScore.score).sum / (docScores.length : ℚ)
    let decision : Bool × String :=
      if entityCheck.hasKnownEntity then
        (true, "Query matches known entities: " ++ String.intercalate ", " entityCheck.matchedEntities)
      else if docOverlap.hasDocumentOverlap then
        (true, "Query matches document topics: " ++ String.intercalate ", " docOverlap.overlappingCompanies)
      else if offTopicCheck.isOffTopic then
        (false, "Query topic (" ++ String.intercalate ", " offTopicCheck.offTopicTerms
          ++ ") not covered by our dataset")
      else if averageScore < 15/100 then
        (false, "Query does not match any known entities or topics in our dataset")
      else if relevantDocs.length < 1 ∧ averageScore < 1/10 then
        (false, "Insufficient relevant documents found")
      else
        (true, "Documents are relevant to query")
    { isRelevant := decision.1
      relevantDocCount := relevantDocs.length
      totalDocCount := documents.length
      averageRelevance := averageScore
      reason := decision.2
      queryTerms := queryTerms
      offTopicCheck := offTopicCheck
      entityCheck := entityCheck
      docOverlap := docOverlap
      docScores := docScores }

/-- The structured analysis object produced by the summarizer collaborator,
the mock, or the guardrail's canned response. -/
structure Analysis where
  narrative : String
  sentiment : String
  sentimentScore : ℚ
  confidence : String
  confidenceExplanation : String
  keyInsights : List String
  sourcesUsed : List String := []
  dataLimitations : Option String := none
deriving Repr, DecidableEq

/-- `{ success, analysis }` as returned by the summarizer collaborators
(`gemini.js`) and by `generateNotRelevantResponse` (per-request `metadata`
such as wall-clock timestamps is outside the embedding). -/
structure SummarizerResult where
  success : Bool
  analysis : Analysis
deriving Repr, DecidableEq

/-- `generateNotRelevantResponse(query, relevanceResult)` -/
def generateNotRelevantResponse (query : String) (relevanceResult : RelevanceResult) : SummarizerResult :=
  { success := true
    analysis :=
      { narrative := "Insufficient relevant data to generate a reliable market insight for \""
          ++ query ++ "\". Our dataset covers Technology, EVs, Indian markets, Crypto, and Finance. This query falls outside the current coverage."
        sentiment := "NEUTRAL"
        sentimentScore := 0
        confidence := "RUMOR"
        confidenceExplanation := relevanceResult.reason
        keyInsights :=
          ["Query topic not well-covered by available data sources",
           "Our dataset covers: Tech (Apple, Microsoft, Tesla, NVIDIA), Indian markets (Tata, Reliance, Infosys), Crypto (Bitcoin, Ethereum), and EV sector",
           "Consider refining your query to match these focus areas"]
        sourcesUsed := []
        dataLimitations := some "Query does not match the focus areas of our curated financial dataset." } }

/-- `generateMockAnalysis(query, documents)` from `gemini.js` (the query and
documents only feed the `metadata`, which is outside the embedding). -/
def generateMockAnalysis (query : String) (documents : List Article) : SummarizerResult :=
  { success := true
    analysis :=
      { narrative := "Based on available sources, the market shows mixed but cautiously optimistic signals."
        sentiment := "POSITIVE"
        sentimentScore := 7/10
        confidence := "EMERGING"
        confidenceExplanation := "The analysis is based on multiple credible sources, but long-term impacts remain uncertain."
        keyInsights :=
          ["AI-related demand continues to drive market momentum",
           "Earnings performance remains strong across major players",
           "Regulatory risks exist but are currently manageable"] } }

/-! ## Pipeline orchestrator (`routes/analyze.js`, `POST /api/analyze`) -/

/-- Request options with the route's defaults. -/
structure AnalyzeOptions where
  maxSources : Nat := 8
  minCredibility : ℚ := 4/10
  companies : List String := []
  useMock : Bool := false
deriving Repr, DecidableEq

/-- The per-stage counters assembled by the route (`pipeline` in the JSON
response); `processingTimeMs` is wall-clock time and outside the embedding. -/
structure Pipeline where
  retrieved : Nat
  afterCredibilityFilter : Nat := 0
  afterDeduplication : Nat := 0
  duplicatesRemoved : Nat := 0
  finalSourcesUsed : Nat := 0
  relevanceFiltered : Bool := false
  usedMockResponse : Bool := false
deriving Repr, DecidableEq

/-- The per-source summary sent back to the client: full body text stripped. -/
structure SourceSummary where
  id : String
  headline : String
  source : String
  sourceType : String
  credibility : Option Credibility
  timestamp : String
  companies : List String
deriving Repr, DecidableEq

def toSourceSummary (a : Article) : SourceSummary :=
  { id := a.id, headline := a.headline, source := a.source, sourceType := a.sourceType
    credibility := a.credibility, timestamp := a.timestamp, companies := a.companies }

/-- The JSON body of a (non-HTTP-error) response from the route. -/
structure AnalyzeResponse where
  success : Bool
  query : String
  analysis : Option Analysis
  message : Option String := none
  sources : List SourceSummary
  pipeline : Pipeline
deriving Repr, DecidableEq

/-- One constructor per `return res.json(...)` site of the route handler.
`analyzed` records (first component) the exact document list handed to the
summarizer collaborator. -/
inductive AnalyzeOutcome where
  | invalidQuery : AnalyzeOutcome
  | noContent : AnalyzeResponse → AnalyzeOutcome
  | belowCredibility : AnalyzeResponse → AnalyzeOutcome
  | notRelevant : AnalyzeResponse → AnalyzeOutcome
  | analyzed : List Article → AnalyzeResponse → AnalyzeOutcome
deriving Repr, DecidableEq

/-- The route's `credibleSources` constant: step 3 of the handler. -/
def credSources (options : AnalyzeOptions) (retrieved : List Article) : List Article :=
  filterByCredibility retrieved options.minCredibility

/-- The route's `finalSources` constant: deduplicate (step 4, default 0.6
threshold), sort by credibility, and cap at `maxSources`. -/
def finalSources (options : AnalyzeOptions) (retrieved : List Article) : List Article :=
  (sortByCredibility (deduplicateArticles (credSources options retrieved)).1).take
    options.maxSources

/-- The `return res.json(...)` body when retrieval finds nothing. -/
def noContentResponse (query : String) : AnalyzeResponse :=
  { success := true, query := query, analysis := none
    message := some "No relevant content found for this query. Try different keywords or company names."
    sources := [], pipeline := { retrieved := 0 } }

/-- The `return res.json(...)` body when no source passes the credibility
threshold. -/
def belowCredResponse (query : String) (retrieved : List Article) : AnalyzeResponse :=
  { success := true, query := query, analysis := none
    message := some "Found content but all sources below credibility threshold. Try lowering minCredibility."
    sources := [], pipeline := { retrieved := retrieved.length } }

/-- The `return res.json({ ...safeResponse, query, sources: [], ... })` body
on guardrail rejection. -/
def notRelevantResponse (query : String) (options : AnalyzeOptions)
    (retrieved : List Article) : AnalyzeResponse :=
  { success := (generateNotRelevantResponse query
      (evaluateRelevance query (finalSources options retrieved))).success
    query := query
    analysis := some (generateNotRelevantResponse query
      (evaluateRelevance query (finalSources options retrieved))).analysis
    sources := []
    pipeline :=
      { retrieved := retrieved.length
        afterCredibilityFilter := (credSources options retrieved).length
        afterDeduplication := (deduplicateArticles (credSources options retrieved)).1.length
        duplicatesRemoved := (deduplicateArticles (credSources options retrieved)).2.length
        finalSourcesUsed := 0
        relevanceFiltered := true
        usedMockResponse := false } }

/-- `useMock ? generateMockAnalysis(...) : analyzeWithLLM(...)`: the
summarizer switch of step 7. -/
def summarizerOutput (summarize : String → List Article → SummarizerResult)
    (query : String) (options : AnalyzeOptions) (docs : List Article) : SummarizerResult :=
  if options.useMock then generateMockAnalysis query docs else summarize query docs

/-- The final success response of step 8. -/
def analyzedResponse (summarize : String → List Article → SummarizerResult)
    (query : String) (options : AnalyzeOptions) (retrieved : List Article) : AnalyzeResponse :=
  { success := (summarizerOutput summarize query options (finalSources options retrieved)).success
    query := query
    analysis := some (summarizerOutput summarize query options (finalSources options retrieved)).analysis
    sources := (finalSources options retrieved).map toSourceSummary
    pipeline :=
      { retrieved := retrieved.length
        afterCredibilityFilter := (credSources options retrieved).length
        afterDeduplication := (deduplicateArticles (credSources options retrieved)).1.length
        duplicatesRemoved := (deduplicateArticles (credSources options retrieved)).2.length
        finalSourcesUsed := (finalSources options retrieved).length
        relevanceFiltered := false
        usedMockResponse := options.useMock } }

/-- Steps 2b–8 of the `POST /api/analyze` handler, after retrieval has
succeeded with `retrieved`. Each `return res.json(...)` site of the route is
one branch. -/
def analyzeWithRetrieved (summarize : String → List Article → SummarizerResult)
    (query : String) (options : AnalyzeOptions) (retrieved : List Article) : AnalyzeOutcome :=
  if retrieved.length = 0 then
    AnalyzeOutcome.noContent (noContentResponse query)
  else if (credSources options retrieved).length = 0 then
    AnalyzeOutcome.belowCredibility (belowCredResponse query retrieved)
  else if (evaluateRelevance query (finalSources options retrieved)).isRelevant = false then
    AnalyzeOutcome.notRelevant (notRelevantResponse query options retrieved)
  else
    AnalyzeOutcome.analyzed (finalSources options retrieved)
      (analyzedResponse summarize query options retrieved)

/-- The `POST /api/analyze` handler. The static corpus and the summarizer
collaborator (`analyzeWithLLM`) are passed explicitly; an uncaught exception
(the retrieval `RegExp` syntax error) propagates as `Except.error`, which the
route turns into an HTTP 500. -/
def analyze (corpus : List Article) (summarize : String → List Article → SummarizerResult)
    (query : String) (options : AnalyzeOptions) : Except String AnalyzeOutcome :=
  if query.trim.length = 0 then Except.ok AnalyzeOutcome.invalidQuery
  else
    match retrieveRelevantContent corpus query
      { maxResults := options.maxSources * 2, companies := options.companies } with
    | Except.error e => Except.error e
    | Except.ok retrieved =>
      Except.ok (analyzeWithRetrieved summarize query options retrieved)

/-! ## Definitions supporting the verification -/

/-- Equality of `Except` values is decidable componentwise (needed to evaluate
the pipeline on concrete inputs inside proofs). -/
def exceptDecEq {ε α : Type} [DecidableEq ε] [DecidableEq α] :
    DecidableEq (Except ε α) := fun x y =>
  match x, y with
  | Except.error e, Except.error f =>
    if h : e = f then Decidable.isTrue (by rw [h])
    else Decidable.isFalse (by intro hh; cases hh; exact h rfl)
  | Except.ok a, Except.ok b =>
    if h : a = b then Decidable.isTrue (by rw [h])
    else Decidable.isFalse (by intro hh; cases hh; exact h rfl)
  | Except.error _, Except.ok _ => Decidable.isFalse (by intro hh; exact Except.noConfusion hh)
  | Except.ok _, Except.error _ => Decidable.isFalse (by intro hh; exact Except.noConfusion hh)

instance {ε α : Type} [DecidableEq ε] [DecidableEq α] : DecidableEq (Except ε α) :=
  exceptDecEq

/-- The contribution the CODE gives one term on one article: every occurrence
in headline-plus-body counts once, and every headline occurrence counts an
additional TWICE (so a headline occurrence is worth three body occurrences). -/
def termContribution (article : Article) (term : String) : Nat :=
  let full := countOcc term.data (jsToLower (articleText article)).data
  let head := countOcc term.data (jsToLower article.headline).data
  if full > 0 then full + 2 * head else 0

/-- The retrieval scoring rule as the SPEC words it (for comparison with
`scoreArticle`): "count occurrences of every expanded term in
`headline + body` (weight 1 per occurrence) and in `headline` alone
(additional weight 1, i.e. headline occurrences count twice total)". -/
def specScoreArticle (expandedTerms : List String) (article : Article) : Nat :=
  (expandedTerms.map (fun term =>
    let full := countOcc term.data (jsToLower (articleText article)).data
    let head := countOcc term.data (jsToLower article.headline).data
    full + head)).sum

/-- Sorted by descending `credibility?.score || 0`. -/
def SortedDesc (l : List Article) : Prop :=
  List.Pairwise (fun x y => credScore y ≤ credScore x) l

/-- The invariant of the deduplicator's `unique` accumulator: every member is
strictly below the similarity threshold against every member kept before it. -/
def Chk (threshold : ℚ) (l : List Article) : Prop :=
  List.Pairwise (fun x y => jaccardSimilarity (articleText y) (articleText x) < threshold) l

/-- Sample corpus article used by the concrete witnesses: an on-topic,
officially-sourced Apple document. -/
def appleArt : Article :=
  { id := "a1", headline := "apple iphone sales", content := "apple revenue rises"
    source := "Apple Investor Relations", sourceType := "official", companies := ["AAPL"] }

/-- Sample corpus article used by the concrete witnesses: an off-topic
document whose text still matches a "fashion" query. -/
def fashionArt : Article :=
  { id := "f1", headline := "fashion week results", content := "fashion brands update"
    source := "Style Daily", sourceType := "official", companies := [] }

/-- Sample article used by the retrieval-weighting counterexample: the term
"tesla" occurs once, in the headline only. -/
def teslaArt : Article :=
  { id := "t1", headline := "tesla update", content := "cars"
    source := "Electrek", sourceType := "major_publication", companies := ["TSLA"] }

/-- A summarizer collaborator used by the concrete witnesses. -/
def wSummarizer : String → List Article → SummarizerResult :=
  fun query documents => generateMockAnalysis query documents

/-- A second, observably different summarizer, used to witness that rejected
paths do not depend on the summarizer. -/
def wSummarizer2 : String → List Article → SummarizerResult :=
  fun query _ => generateNotRelevantResponse query (evaluateRelevance query [])

/-- The retrieval result for the witness run `analyze [appleArt] _
"apple earnings" {}`. -/
def wRetrieved : List Article :=
  match retrieveRelevantContent [appleArt] "apple earnings" { maxResults := 16 } with
  | Except.ok l => l
  | Except.error _ => []

/-- The retrieval result for the witness run `analyze [fashionArt] _
"fashion" {}`. -/
def wFashionRetrieved : List Article :=
  match retrieveRelevantContent [fashionArt] "fashion" { maxResults := 16 } with
  | Except.ok l => l
  | Except.error _ => []

/-! ## General lemmas about the deduplicator's similarity measure -/

theorem jaccard_comm (a b : String) : jaccardSimilarity a b = jaccardSimilarity b a := by
  unfold jaccardSimilarity
  dsimp only
  rw [Finset.inter_comm, Finset.union_comm]

theorem jaccard_self (a : String) (h : (tokenSet a).Nonempty) : jaccardSimilarity a a = 1 := by
  unfold jaccardSimilarity
  simp only [Finset.inter_self, Finset.union_self]
  have hc : (tokenSet a).card ≠ 0 := Finset.card_ne_zero.mpr h
  rw [if_neg hc, div_self (by exact_mod_cast hc)]

/-- C6 counterexample: on a text with no token of length > 2 the similarity of
a text with itself is 0, not 1 — the code returns 0 when the token-set union
is empty, so `sim(a,a) = 1.0` fails for the empty text. -/
theorem jaccard_self_fails_on_empty :
    jaccardSimilarity "" "" = 0 ∧ jaccardSimilarity "" "" ≠ 1 := by
  with_unfolding_all decide

theorem jaccard_self_empty (a : String) (h : tokenSet a = ∅) :
    jaccardSimilarity a a = 0 := by
  unfold jaccardSimilarity
  dsimp only
  rw [h]
  simp

/-- C6 (amended): the deduplicator's Jaccard similarity is symmetric for ALL
pairs of texts; `sim(a,a) = 1` for every text whose token set (words of
length > 2 after lowercasing and punctuation stripping) is nonempty; and
`sim(a,a) = 0` for every text whose token set is empty. -/
theorem jaccard_symmetric_and_self (a b : String) :
    jaccardSimilarity a b = jaccardSimilarity b a ∧
    ((tokenSet a).Nonempty → jaccardSimilarity a a = 1) ∧
    (tokenSet a = ∅ → jaccardSimilarity a a = 0) :=
  ⟨jaccard_comm a b, fun h => jaccard_self a h, fun h => jaccard_self_empty a h⟩

theorem jaccard_symmetric_and_self_witness :
    (jaccardSimilarity "apple earnings news" "tesla deliveries" =
       jaccardSimilarity "tesla deliveries" "apple earnings news") ∧
    ((tokenSet "apple earnings news").Nonempty ∧
     jaccardSimilarity "apple earnings news" "apple earnings news" = 1) ∧
    (tokenSet "a b" = ∅ ∧ jaccardSimilarity "a b" "a b" = 0) :=
  ⟨(jaccard_symmetric_and_self "apple earnings news" "tesla deliveries").1,
   ⟨by with_unfolding_all decide,
    (jaccard_symmetric_and_self "apple earnings news" "tesla deliveries").2.1
      (by with_unfolding_all decide)⟩,
   ⟨by with_unfolding_all decide,
    (jaccard_symmetric_and_self "a b" "tesla deliveries").2.2
      (by with_unfolding_all decide)⟩⟩

/-! ## Credibility scorer -/

theorem except_bind_ok {α β : Type} (x : α) (f : α → Except String β) :
    (Except.ok x : Except String α) >>= f = f x := rfl

theorem except_bind_err {α β : Type} (e : String) (f : α → Except String β) :
    (Except.error e : Except String α) >>= f = Except.error e := rfl

theorem except_pure_eq {α : Type} (x : α) :
    (pure x : Except String α) = Except.ok x := rfl

theorem foldlM_scoreStep (article : Article) :
    ∀ (terms : List String) (acc : Nat), (∀ t ∈ terms, regexPatternOk t = true) →
      terms.foldlM (scoreStep article) acc
        = Except.ok (acc + (terms.map (termContribution article)).sum) := by
  intro terms
  induction terms with
  | nil => intro acc _; simp; rfl
  | cons t ts ih =>
    intro acc h
    have ht : regexPatternOk t = true := h t (by simp)
    have hts : ∀ x ∈ ts, regexPatternOk x = true := fun x hx => h x (by simp [hx])
    have hstep : scoreStep article acc t = Except.ok (acc + termContribution article t) := by
      unfold scoreStep termContribution countRegexMatches
      simp only [if_pos ht, except_bind_ok]
      by_cases hf : countOcc t.data (jsToLower (articleText article)).data > 0
      · simp only [if_pos hf, except_bind_ok, except_pure_eq]
        congr 1
        ring
      · rw [if_neg hf, except_pure_eq]
        simp only [if_neg hf]
        congr 1
    rw [List.foldlM_cons, hstep, except_bind_ok, ih _ hts]
    simp [Nat.add_assoc]

/-- C8 counterexample: for the single term "tesla" on an article whose
headline contains the term once and whose body does not, the code scores 3
(weight 1 for the occurrence counted in headline-plus-body, plus a headline
bonus of 2), while the claimed weighting — "additional weight 1, headline
occurrences count twice total" — yields 2. -/
theorem scoreArticle_not_double_weighted :
    scoreArticle ["tesla"] teslaArt = Except.ok 3 ∧
    specScoreArticle ["tesla"] teslaArt = 2 := by
  with_unfolding_all decide

/-- C8 (amended): for every article and every list of expanded terms whose
RegExp patterns compile, the retrieval score is the sum over terms of: the
occurrence count in headline + body (weight 1 each) plus TWO extra per
occurrence in the headline alone — so a headline occurrence contributes
exactly three times as much as a body occurrence, not twice. -/
theorem scoreArticle_weights (expandedTerms : List String) (article : Article)
    (h : ∀ t ∈ expandedTerms, regexPatternOk t = true) :
    scoreArticle expandedTerms article
      = Except.ok ((expandedTerms.map (termContribution article)).sum) := by
  unfold scoreArticle
  simpa using foldlM_scoreStep article expandedTerms 0 h

theorem scoreArticle_weights_witness :
    (∀ t ∈ (["tesla"] : List String), regexPatternOk t = true) ∧
    scoreArticle ["tesla"] teslaArt
      = Except.ok (((["tesla"] : List String).map (termContribution teslaArt)).sum) :=
  ⟨by with_unfolding_all decide,
   scoreArticle_weights ["tesla"] teslaArt (by with_unfolding_all decide)⟩

/-! ## Guardrail entity prefix matching (C9) -/

theorem prefix_branch_iff (term variation : String) :
    (if term.length < 4 then false
     else if variation.startsWith term ∧ (term.length : ℚ) ≥ (variation.length : ℚ) * (8/10) then true
     else if term.startsWith variation ∧ variation.length ≥ 4 then true
     else false) = true ↔
    4 ≤ term.length ∧
      ((variation.startsWith term = true ∧
          (variation.length : ℚ) * (8/10) ≤ (term.length : ℚ)) ∨
       (term.startsWith variation = true ∧ 4 ≤ variation.length)) := by
  split_ifs with h1 h2 h3
  · exact iff_of_false (by simp) (fun hh => by omega)
  · exact iff_of_true rfl ⟨by omega, Or.inl ⟨h2.1, h2.2⟩⟩
  · exact iff_of_true rfl ⟨by omega, Or.inr ⟨h3.1, h3.2⟩⟩
  · refine iff_of_false (by simp) ?_
    rintro ⟨hl, hab⟩
    exact hab.elim (fun ha => h2 ⟨ha.1, ha.2⟩) (fun hb => h3 ⟨hb.1, hb.2⟩)

/-- C9 counterexample: the query term "bankruptcy" (length 10) matches the
entity "banking" through its single-word variant "bank" (length 4) — not an
exact term match, not a multi-word phrase match, and the shorter string
covers only 40% of the longer one, violating the claimed ≥ 80% coverage
condition; the code's second prefix branch only requires the variant to be a
prefix of the term and have length ≥ 4. -/
theorem prefix_match_without_coverage :
    (["bankruptcy"] : List String).contains "bank" = false ∧
    jsIncludes "bank" " " = false ∧
    variationMatches ["bankruptcy"] "bankruptcy" "bank" = true ∧
    (detectKnownEntities ["bankruptcy"]).matchedEntities = ["banking"] ∧
    ¬((("bankruptcy" : String).length : ℚ) * (8/10) ≤ (("bank" : String).length : ℚ)) := by
  with_unfolding_all decide

/-- C9 (amended): a non-exact, non-phrase match between a query term and a
single-word entity variant succeeds iff the term has length ≥ 4 and EITHER
the term is a prefix of the variant covering ≥ 80% of its length, OR the
variant is a prefix of the term and the variant itself has length ≥ 4 (no 80%
coverage required in that direction). In particular no term of length < 4
ever produces a prefix match. -/
theorem variation_prefix_match_characterization (queryTerms : List String)
    (queryText variation : String)
    (hexact : queryTerms.contains variation = false)
    (hphrase : (jsIncludes variation " " && jsIncludes queryText variation) = false) :
    variationMatches queryTerms queryText variation = true ↔
      ∃ term, term ∈ queryTerms ∧ (4 ≤ term.length ∧
        ((variation.startsWith term = true ∧
            (variation.length : ℚ) * (8/10) ≤ (term.length : ℚ)) ∨
         (term.startsWith variation = true ∧ 4 ≤ variation.length))) := by
  unfold variationMatches
  have hnot1 : ¬(queryTerms.contains variation = true) := by
    rw [hexact]; exact Bool.false_ne_true
  have hnot2 : ¬((jsIncludes variation " " && jsIncludes queryText variation) = true) := by
    rw [hphrase]; exact Bool.false_ne_true
  rw [if_neg hnot1, if_neg hnot2, List.any_eq_true]
  exact exists_congr fun term => and_congr_right fun _ => prefix_branch_iff term variation

theorem variation_prefix_match_witness :
    ((["bankruptcy"] : List String).contains "bank" = false) ∧
    ((jsIncludes "bank" " " && jsIncludes "bankruptcy" "bank") = false) ∧
    variationMatches ["bankruptcy"] "bankruptcy" "bank" = true :=
  ⟨by with_unfolding_all decide, by with_unfolding_all decide,
   (variation_prefix_match_characterization ["bankruptcy"] "bankruptcy" "bank"
      (by with_unfolding_all decide) (by with_unfolding_all decide)).mpr
    ⟨"bankruptcy", by simp,
     by with_unfolding_all decide,
     Or.inr ⟨by with_unfolding_all decide, by with_unfolding_all decide⟩⟩⟩

/-! ## Retrieval is not total (C10) -/

/-- C10: retrieval is not total over query strings: the query "c++ stocks"
contains the whitespace-separated token "c++" (length 3, so it survives the
length-> 2 filter), whose `new RegExp` compilation fails ("nothing to
repeat"); on any nonempty corpus the per-article scoring loop therefore
throws instead of returning a result list. -/
theorem retrieval_throws_on_metacharacter (corpus : List Article)
    (options : RetrievalOptions) (h : corpus ≠ []) :
    retrieveRelevantContent corpus "c++ stocks" options = Except.error "c++" := by
  obtain ⟨a, rest, rfl⟩ := List.exists_cons_of_ne_nil h
  have hE : expandQueryTerms "c++ stocks" = ["c++", "stocks"] := by
    with_unfolding_all decide
  have hpat : regexPatternOk "c++" = false := by with_unfolding_all decide
  have hscore : ∀ article : Article,
      scoreArticle (expandQueryTerms "c++ stocks") article = Except.error "c++" := by
    intro article
    rw [hE]
    unfold scoreArticle
    rw [List.foldlM_cons]
    have hstep : scoreStep article 0 "c++" = Except.error "c++" := by
      unfold scoreStep countRegexMatches
      rw [if_neg (by simp [hpat])]
      rfl
    rw [hstep]
    rfl
  unfold retrieveRelevantContent
  rw [List.mapM_cons]
  show ((scoreArticle (expandQueryTerms "c++ stocks") a) >>= _) >>= _ >>= _ = _
  rw [hscore a]
  rfl

theorem retrieval_throws_witness :
    ([appleArt] : List Article) ≠ [] ∧
    retrieveRelevantContent [appleArt] "c++ stocks" {} = Except.error "c++" :=
  ⟨List.cons_ne_nil _ _,
   retrieval_throws_on_metacharacter [appleArt] {} (List.cons_ne_nil _ _)⟩

/-! ## Sorting lemmas -/

theorem insertByCred_perm (x : Article) (l : List Article) :
    List.Perm (insertByCred x l) (x :: l) := by
  induction l with
  | nil => exact List.Perm.refl _
  | cons y ys ih =>
    unfold insertByCred
    split_ifs with h
    · exact List.Perm.refl _
    · exact (ih.cons y).trans (List.Perm.swap x y ys)

theorem sortByCredibility_perm (l : List Article) : List.Perm (sortByCredibility l) l := by
  induction l with
  | nil => exact List.Perm.refl _
  | cons x xs ih => exact (insertByCred_perm x (sortByCredibility xs)).trans (ih.cons x)

theorem insertByCred_sorted (x : Article) (l : List Article) (h : SortedDesc l) :
    SortedDesc (insertByCred x l) := by
  induction l with
  | nil => exact List.pairwise_singleton _ _
  | cons y ys ih =>
    unfold insertByCred
    split_ifs with hxy
    · refine List.Pairwise.cons ?_ h
      intro z hz
      rcases List.mem_cons.mp hz with rfl | hz'
      · exact hxy
      · exact le_trans (List.rel_of_pairwise_cons h hz') hxy
    · have hys : SortedDesc ys := h.of_cons
      refine List.Pairwise.cons ?_ (ih hys)
      intro z hz
      have hz' := (insertByCred_perm x ys).mem_iff.mp hz
      rcases List.mem_cons.mp hz' with rfl | hz''
      · exact le_of_lt (lt_of_not_le hxy)
      · exact List.rel_of_pairwise_cons h hz''

theorem sortByCredibility_sorted (l : List Article) : SortedDesc (sortByCredibility l) := by
  induction l with
  | nil => exact List.Pairwise.nil
  | cons x xs ih => exact insertByCred_sorted x _ ih

theorem sortByCredibility_of_sorted (l : List Article) (h : SortedDesc l) :
    sortByCredibility l = l := by
  induction l with
  | nil => rfl
  | cons x xs ih =>
    have hxs : SortedDesc xs := h.of_cons
    unfold sortByCredibility
    rw [ih hxs]
    cases xs with
    | nil => rfl
    | cons y ys =>
      unfold insertByCred
      rw [if_pos (List.rel_of_pairwise_cons h (by simp))]

/-! ## Deduplicator loop invariants -/

theorem markUnique_idem (a : Article) : markUnique (markUnique a) = markUnique a := rfl

theorem articleText_markUnique (a : Article) : articleText (markUnique a) = articleText a := rfl

theorem credScore_markUnique (a : Article) : credScore (markUnique a) = credScore a := rfl

theorem isDupOf_eq_false_iff (t : ℚ) (a : Article) (u : List Article) :
    isDupOf t a u = false ↔
      ∀ k ∈ u, jaccardSimilarity (articleText a) (articleText k) < t := by
  unfold isDupOf
  rw [← Bool.not_eq_true, List.any_eq_true]
  constructor
  · intro h k hk
    by_contra hge
    exact h ⟨k, hk, by simpa using not_lt.mp hge⟩
  · rintro h ⟨k, hk, hdec⟩
    exact absurd (of_decide_eq_true hdec) (not_le.mpr (h k hk))

theorem dedupLoop_chk (t : ℚ) :
    ∀ (l u d : List Article), Chk t u → Chk t (dedupLoop t l (u, d)).1 := by
  intro l
  induction l with
  | nil => intro u d hu; exact hu
  | cons a rest ih =>
    intro u d hu
    unfold dedupLoop
    split_ifs with hdup
    · exact ih u _ hu
    · refine ih _ _ ?_
      have hlt := (isDupOf_eq_false_iff t a u).mp (by simpa using hdup)
      rw [Chk, List.pairwise_append]
      refine ⟨hu, List.pairwise_singleton _ _, ?_⟩
      intro x hx y hy
      rcases List.mem_singleton.mp hy with rfl
      rw [articleText_markUnique]
      exact hlt x hx

theorem dedupLoop_mem (t : ℚ) :
    ∀ (l u d : List Article) (x : Article), x ∈ (dedupLoop t l (u, d)).1 →
      x ∈ u ∨ ∃ b ∈ l, x = markUnique b := by
  intro l
  induction l with
  | nil => intro u d x hx; exact Or.inl hx
  | cons a rest ih =>
    intro u d x hx
    unfold dedupLoop at hx
    split_ifs at hx with hdup
    · rcases ih _ _ _ hx with h | ⟨b, hb, rfl⟩
      · exact Or.inl h
      · exact Or.inr ⟨b, by simp [hb], rfl⟩
    · rcases ih _ _ _ hx with h | ⟨b, hb, rfl⟩
      · rcases List.mem_append.mp h with h' | h'
        · exact Or.inl h'
        · exact Or.inr ⟨a, by simp, List.mem_singleton.mp h'⟩
      · exact Or.inr ⟨b, by simp [hb], rfl⟩

theorem pairwise_middle_congr {r : Article → Article → Prop} (u rest : List Article)
    (a a' : Article)
    (h1 : ∀ z, r z a → r z a') (h2 : ∀ z, r a z → r a' z)
    (h : List.Pairwise r (u ++ a :: rest)) : List.Pairwise r (u ++ a' :: rest) := by
  rw [List.pairwise_append] at h ⊢
  obtain ⟨hu, hrest, hcross⟩ := h
  rw [List.pairwise_cons] at hrest ⊢
  obtain ⟨ha, hrest⟩ := hrest
  refine ⟨hu, ⟨fun z hz => h2 z (ha z hz), hrest⟩, ?_⟩
  intro x hx y hy
  rcases List.mem_cons.mp hy with rfl | hy'
  · exact h1 x (hcross x hx a (by simp))
  · exact hcross x hx y (by simp [hy'])

theorem dedupLoop_sorted (t : ℚ) :
    ∀ (l u d : List Article), SortedDesc (u ++ l) → SortedDesc (dedupLoop t l (u, d)).1 := by
  intro l
  induction l with
  | nil => intro u d h; simpa using h
  | cons a rest ih =>
    intro u d h
    unfold dedupLoop
    split_ifs with hdup
    · apply ih
      exact h.sublist (List.Sublist.append_left (List.sublist_cons_self _ _) u)
    · apply ih
      have h' := pairwise_middle_congr u rest a (markUnique a)
        (fun z hz => hz) (fun z hz => hz) h
      rw [List.append_assoc]
      exact h'

theorem dedupLoop_fixed (t : ℚ) :
    ∀ (rest pre : List Article), Chk t (pre ++ rest) → (∀ x ∈ rest, markUnique x = x) →
      dedupLoop t rest (pre, []) = (pre ++ rest, []) := by
  intro rest
  induction rest with
  | nil => intro pre _ _; simp [dedupLoop]
  | cons a rest ih =>
    intro pre h hm
    have hlt : ∀ k ∈ pre, jaccardSimilarity (articleText a) (articleText k) < t := by
      rw [Chk, List.pairwise_append] at h
      exact fun k hk => h.2.2 k hk a (by simp)
    have hdup : isDupOf t a pre = false := (isDupOf_eq_false_iff t a pre).mpr hlt
    unfold dedupLoop
    rw [if_neg (by simp [hdup]), hm a (by simp)]
    have hchk : Chk t ((pre ++ [a]) ++ rest) := by
      rw [List.append_assoc]
      exact h
    rw [ih (pre ++ [a]) hchk (fun x hx => hm x (by simp [hx]))]
    simp

/-- C7: `deduplicateArticles` is idempotent: re-deduplicating the `unique`
output of a prior run, at the same threshold, returns that output unchanged
together with an empty `duplicates` list. -/
theorem deduplicateArticles_idempotent (articles : List Article) (threshold : ℚ) :
    deduplicateArticles (deduplicateArticles articles threshold).1 threshold
      = ((deduplicateArticles articles threshold).1, []) := by
  by_cases h0 : articles.isEmpty
  · simp [deduplicateArticles, h0]
  · have hfirst : deduplicateArticles articles threshold
        = dedupLoop threshold (sortByCredibility articles) ([], []) := by
      unfold deduplicateArticles
      rw [if_neg (by simp [h0])]
    set u := (deduplicateArticles articles threshold).1 with hu
    have hchk : Chk threshold u := by
      rw [hu, hfirst]
      exact dedupLoop_chk threshold (sortByCredibility articles) [] [] List.Pairwise.nil
    have hmk : ∀ x ∈ u, markUnique x = x := by
      intro x hx
      rw [hu, hfirst] at hx
      rcases dedupLoop_mem threshold (sortByCredibility articles) [] [] x hx with h | ⟨b, _, rfl⟩
      · exact absurd h (List.not_mem_nil x)
      · exact markUnique_idem b
    have hsorted : SortedDesc u := by
      rw [hu, hfirst]
      exact dedupLoop_sorted threshold (sortByCredibility articles) [] []
        (by simpa using sortByCredibility_sorted articles)
    by_cases hue : u.isEmpty
    · have : u = [] := by simpa [List.isEmpty_iff] using hue
      rw [this]
      simp [deduplicateArticles]
    · unfold deduplicateArticles
      rw [if_neg (by simp [hue]), sortByCredibility_of_sorted u hsorted]
      simpa using dedupLoop_fixed threshold u [] (by simpa using hchk) hmk

/-! ## Guardrail decision priorities (C2, C3) -/

/-- C2 counterexample: the query "apple fashion" matches the known entity
"apple" (and contains the off-topic indicator term "fashion"), yet with an
empty document list `evaluateRelevance` returns `isRelevant = false`: the
empty-set short-circuit fires before the entity-match priority, so entity
evidence does not win for every query. -/
theorem entity_match_overridden_by_empty_docs :
    (detectKnownEntities (extractQueryTerms "apple fashion")).hasKnownEntity = true ∧
    (detectOffTopicQuery (extractQueryTerms "apple fashion") false).offTopicTerms = ["fashion"] ∧
    (evaluateRelevance "apple fashion" []).isRelevant = false := by
  with_unfolding_all decide

/-- C2 (amended): for every query whose extracted terms match at least one
known entity and every NONEMPTY document list, `evaluateRelevance` returns
`isRelevant = true`, and the off-topic check is skipped (it reports no
off-topic terms), even when the query contains off-topic indicator words;
with an empty document list the empty-set short-circuit answers not-relevant
first. -/
theorem entity_match_wins_on_nonempty (query : String) (documents : List Article)
    (hne : documents ≠ [])
    (hent : (detectKnownEntities (extractQueryTerms query)).hasKnownEntity = true) :
    (evaluateRelevance query documents).isRelevant = true ∧
    (evaluateRelevance query documents).offTopicCheck.isOffTopic = false ∧
    (evaluateRelevance query documents).offTopicCheck.offTopicTerms = [] := by
  have hde : documents.isEmpty = false := by
    cases documents with
    | nil => exact absurd rfl hne
    | cons a l => rfl
  simp only [evaluateRelevance, hde, Bool.false_eq_true, if_false, hent,
    detectOffTopicQuery, if_true, ite_true]
  simp

theorem entity_match_wins_witness :
    ([appleArt] : List Article) ≠ [] ∧
    (detectKnownEntities (extractQueryTerms "apple fashion")).hasKnownEntity = true ∧
    ((evaluateRelevance "apple fashion" [appleArt]).isRelevant = true ∧
     (evaluateRelevance "apple fashion" [appleArt]).offTopicCheck.isOffTopic = false ∧
     (evaluateRelevance "apple fashion" [appleArt]).offTopicCheck.offTopicTerms = []) :=
  ⟨List.cons_ne_nil _ _, by with_unfolding_all decide,
   entity_match_wins_on_nonempty "apple fashion" [appleArt] (List.cons_ne_nil _ _)
     (by with_unfolding_all decide)⟩

/-- C3 counterexample: with an empty document list the guardrail's reason is
the capitalized string "No documents retrieved"; the claimed reason string
"no documents retrieved" (lowercase) is not what the code returns. -/
theorem empty_docs_reason_capitalized :
    (evaluateRelevance "apple earnings" []).isRelevant = false ∧
    (evaluateRelevance "apple earnings" []).reason = "No documents retrieved" ∧
    (evaluateRelevance "apple earnings" []).reason ≠ "no documents retrieved" := by
  with_unfolding_all decide

/-- C3 (amended): for every query, `evaluateRelevance` on an empty document
list returns not-relevant with reason "No documents retrieved" (capital N,
not the lowercase string of the claim) and an empty per-document score list —
it short-circuits before scoring; and when retrieval returns zero documents
for a validated query, the orchestrator answers the fixed no-content response
and never invokes the summarizer collaborator: its result is identical for
any two summarizers. -/
theorem empty_retrieval_no_content (corpus : List Article) (query : String)
    (options : AnalyzeOptions)
    (s₁ s₂ : String → List Article → SummarizerResult)
    (hq : ¬(query.trim.length = 0))
    (hret : retrieveRelevantContent corpus query
      { maxResults := options.maxSources * 2, companies := options.companies }
        = Except.ok []) :
    (evaluateRelevance query []).isRelevant = false ∧
    (evaluateRelevance query []).reason = "No documents retrieved" ∧
    (evaluateRelevance query []).docScores = [] ∧
    analyze corpus s₁ query options
      = Except.ok (AnalyzeOutcome.noContent (noContentResponse query)) ∧
    analyze corpus s₁ query options = analyze corpus s₂ query options := by
  have hana : ∀ s : String → List Article → SummarizerResult,
      analyze corpus s query options
        = Except.ok (AnalyzeOutcome.noContent (noContentResponse query)) := by
    intro s
    unfold analyze
    rw [if_neg hq, hret]
    rfl
  exact ⟨rfl, rfl, rfl, hana s₁, (hana s₁).trans (hana s₂).symm⟩

theorem empty_retrieval_witness :
    ¬(("zzz unrelated" : String).trim.length = 0) ∧
    retrieveRelevantContent [] "zzz unrelated"
      { maxResults := ({} : AnalyzeOptions).maxSources * 2
        companies := ({} : AnalyzeOptions).companies } = Except.ok [] ∧
    ((evaluateRelevance "zzz unrelated" []).isRelevant = false ∧
     (evaluateRelevance "zzz unrelated" []).reason = "No documents retrieved" ∧
     (evaluateRelevance "zzz unrelated" []).docScores = [] ∧
     analyze [] wSummarizer "zzz unrelated" {}
       = Except.ok (AnalyzeOutcome.noContent (noContentResponse "zzz unrelated")) ∧
     analyze [] wSummarizer "zzz unrelated" {} =
       analyze [] (fun _ _ => generateNotRelevantResponse "" (evaluateRelevance "" []))
         "zzz unrelated" {}) :=
  ⟨by with_unfolding_all decide, by with_unfolding_all decide,
   empty_retrieval_no_content [] "zzz unrelated" {} wSummarizer
     (fun _ _ => generateNotRelevantResponse "" (evaluateRelevance "" []))
     (by with_unfolding_all decide) (by with_unfolding_all decide)⟩

/-! ## Orchestrator inversion (C1, C4) -/

/-- Inverting a `notRelevant` outcome of the handler: recover the branch
conditions and the exact canned response. -/
theorem analyze_notRelevant_inv (corpus : List Article)
    (s : String → List Article → SummarizerResult) (query : String)
    (options : AnalyzeOptions) (resp : AnalyzeResponse)
    (h : analyze corpus s query options = Except.ok (AnalyzeOutcome.notRelevant resp)) :
    ∃ retrieved,
      ¬(query.trim.length = 0) ∧
      retrieveRelevantContent corpus query
        { maxResults := options.maxSources * 2, companies := options.companies }
        = Except.ok retrieved ∧
      ¬(retrieved.length = 0) ∧
      ¬((credSources options retrieved).length = 0) ∧
      (evaluateRelevance query (finalSources options retrieved)).isRelevant = false ∧
      resp = notRelevantResponse query options retrieved := by
  unfold analyze at h
  by_cases hq : query.trim.length = 0
  · rw [if_pos hq] at h
    exact absurd h (by simp)
  · rw [if_neg hq] at h
    cases hr : retrieveRelevantContent corpus query
        { maxResults := options.maxSources * 2, companies := options.companies } with
    | error e => rw [hr] at h; exact absurd h (by simp)
    | ok retrieved =>
      rw [hr] at h
      have hA : analyzeWithRetrieved s query options retrieved
          = AnalyzeOutcome.notRelevant resp := by
        injection h
      unfold analyzeWithRetrieved at hA
      split_ifs at hA with h1 h2 h3
      · refine ⟨retrieved, hq, rfl, h1, h2, h3, ?_⟩
        injection hA with hA
        exact hA.symm

/-- Inverting an `analyzed` outcome of the handler: the documents handed to
the summarizer are exactly `finalSources options retrieved` for the retrieved
candidates, and they are reported as the response's sources. -/
theorem analyze_analyzed_inv (corpus : List Article)
    (s : String → List Article → SummarizerResult) (query : String)
    (options : AnalyzeOptions) (fs : List Article) (resp : AnalyzeResponse)
    (h : analyze corpus s query options = Except.ok (AnalyzeOutcome.analyzed fs resp)) :
    ∃ retrieved,
      retrieveRelevantContent corpus query
        { maxResults := options.maxSources * 2, companies := options.companies }
        = Except.ok retrieved ∧
      fs = finalSources options retrieved ∧
      resp.sources = fs.map toSourceSummary := by
  unfold analyze at h
  by_cases hq : query.trim.length = 0
  · rw [if_pos hq] at h
    exact absurd h (by simp)
  · rw [if_neg hq] at h
    cases hr : retrieveRelevantContent corpus query
        { maxResults := options.maxSources * 2, companies := options.companies } with
    | error e => rw [hr] at h; exact absurd h (by simp)
    | ok retrieved =>
      rw [hr] at h
      have hA : analyzeWithRetrieved s query options retrieved
          = AnalyzeOutcome.analyzed fs resp := by
        injection h
      unfold analyzeWithRetrieved at hA
      split_ifs at hA with h1 h2 h3
      · injection hA with hfs hresp
        refine ⟨retrieved, rfl, hfs.symm, ?_⟩
        rw [← hresp, ← hfs]
        rfl

/-- Forward evaluation of the guardrail-rejection branch: under the branch
conditions the handler's result is the canned `notRelevant` outcome, for any
summarizer. -/
theorem analyze_notRelevant_fwd (corpus : List Article)
    (s : String → List Article → SummarizerResult) (query : String)
    (options : AnalyzeOptions) (retrieved : List Article)
    (hq : ¬(query.trim.length = 0))
    (hret : retrieveRelevantContent corpus query
      { maxResults := options.maxSources * 2, companies := options.companies }
        = Except.ok retrieved)
    (h1 : ¬(retrieved.length = 0))
    (h2 : ¬((credSources options retrieved).length = 0))
    (h3 : (evaluateRelevance query (finalSources options retrieved)).isRelevant = false) :
    analyze corpus s query options
      = Except.ok (AnalyzeOutcome.notRelevant (notRelevantResponse query options retrieved)) := by
  unfold analyze
  rw [if_neg hq, hret]
  show Except.ok (analyzeWithRetrieved s query options retrieved) = _
  unfold analyzeWithRetrieved
  rw [if_neg h1, if_neg h2, if_pos h3]

/-- C4: whenever the guardrail rejects (a `notRelevant` outcome), the route's
response carries an empty sources list and the fixed canned structured result
with sentiment NEUTRAL (score 0) and confidence RUMOR whose explanation is
the guardrail's reason string; and the summarizer collaborator is never
invoked on that path: the orchestrator's result is identical under any other
summarizer. -/
theorem guardrail_rejection_canned (corpus : List Article)
    (s₁ s₂ : String → List Article → SummarizerResult) (query : String)
    (options : AnalyzeOptions) (resp : AnalyzeResponse)
    (h : analyze corpus s₁ query options = Except.ok (AnalyzeOutcome.notRelevant resp)) :
    resp.sources = [] ∧ resp.success = true ∧
    (∃ fs, (evaluateRelevance query fs).isRelevant = false ∧
      resp.analysis = some (generateNotRelevantResponse query
        (evaluateRelevance query fs)).analysis ∧
      ∃ a, resp.analysis = some a ∧ a.sentiment = "NEUTRAL" ∧ a.sentimentScore = 0 ∧
        a.confidence = "RUMOR" ∧
        a.confidenceExplanation = (evaluateRelevance query fs).reason) ∧
    analyze corpus s₂ query options = analyze corpus s₁ query options := by
  obtain ⟨retrieved, hq, hret, h1, h2, h3, rfl⟩ :=
    analyze_notRelevant_inv corpus s₁ query options resp h
  refine ⟨rfl, rfl, ⟨finalSources options retrieved, h3, rfl,
    ⟨_, rfl, rfl, rfl, rfl, rfl⟩⟩, ?_⟩
  rw [analyze_notRelevant_fwd corpus s₂ query options retrieved hq hret h1 h2 h3]
  exact h.symm

theorem guardrail_rejection_witness :
    (notRelevantResponse "fashion" {} wFashionRetrieved).sources = [] ∧
    (notRelevantResponse "fashion" {} wFashionRetrieved).success = true ∧
    (∃ fs, (evaluateRelevance "fashion" fs).isRelevant = false ∧
      (notRelevantResponse "fashion" {} wFashionRetrieved).analysis
        = some (generateNotRelevantResponse "fashion" (evaluateRelevance "fashion" fs)).analysis ∧
      ∃ a, (notRelevantResponse "fashion" {} wFashionRetrieved).analysis = some a ∧
        a.sentiment = "NEUTRAL" ∧ a.sentimentScore = 0 ∧ a.confidence = "RUMOR" ∧
        a.confidenceExplanation = (evaluateRelevance "fashion" fs).reason) ∧
    analyze [fashionArt] wSummarizer2 "fashion" {} = analyze [fashionArt] wSummarizer "fashion" {} :=
  guardrail_rejection_canned [fashionArt] wSummarizer wSummarizer2 "fashion" {}
    (notRelevantResponse "fashion" {} wFashionRetrieved)
    (by with_unfolding_all decide)

/-! ## Final document set invariant (C1) -/

theorem mem_credSources (options : AnalyzeOptions) (retrieved : List Article) (a : Article)
    (h : a ∈ credSources options retrieved) : options.minCredibility ≤ credScore a := by
  unfold credSources filterByCredibility at h
  exact of_decide_eq_true (List.mem_filter.mp h).2

theorem dedup_unique_credBound (options : AnalyzeOptions) (retrieved : List Article)
    (a : Article) (ha : a ∈ (deduplicateArticles (credSources options retrieved)).1) :
    options.minCredibility ≤ credScore a := by
  unfold deduplicateArticles at ha
  split_ifs at ha with he
  · exact absurd ha (List.not_mem_nil a)
  · rcases dedupLoop_mem _ _ _ _ a ha with hmem | ⟨b, hb, rfl⟩
    · exact absurd hmem (List.not_mem_nil a)
    · have hbc : b ∈ credSources options retrieved :=
        (sortByCredibility_perm _).mem_iff.mp hb
      simpa [credScore_markUnique] using mem_credSources options retrieved b hbc

theorem dedup_unique_pairwise (t : ℚ) (articles : List Article) :
    List.Pairwise
      (fun a b => jaccardSimilarity (articleText a) (articleText b) < t ∧
        jaccardSimilarity (articleText b) (articleText a) < t)
      (deduplicateArticles articles t).1 := by
  unfold deduplicateArticles
  split_ifs with he
  · exact List.Pairwise.nil
  · have hchk := dedupLoop_chk t (sortByCredibility articles) [] [] List.Pairwise.nil
    exact hchk.imp (fun h => ⟨by rw [jaccard_comm]; exact h, h⟩)

theorem finalSources_invariant (options : AnalyzeOptions) (retrieved : List Article) :
    (finalSources options retrieved).length ≤ options.maxSources ∧
    (∀ a ∈ finalSources options retrieved, options.minCredibility ≤ credScore a) ∧
    List.Pairwise (fun a b => jaccardSimilarity (articleText a) (articleText b) < 6/10)
      (finalSources options retrieved) := by
  refine ⟨?_, ?_, ?_⟩
  · unfold finalSources
    rw [List.length_take]
    exact min_le_left _ _
  · intro a ha
    have ha1 : a ∈ sortByCredibility (deduplicateArticles (credSources options retrieved)).1 :=
      List.take_subset _ _ ha
    have ha2 : a ∈ (deduplicateArticles (credSources options retrieved)).1 :=
      (sortByCredibility_perm _).mem_iff.mp ha1
    exact dedup_unique_credBound options retrieved a ha2
  · have hpair := dedup_unique_pairwise (6/10) (credSources options retrieved)
    have hsorted := hpair.perm (sortByCredibility_perm _).symm
      (fun hab => ⟨hab.2, hab.1⟩)
    have htake := hsorted.sublist (List.take_sublist options.maxSources
      (sortByCredibility (deduplicateArticles (credSources options retrieved)).1))
    exact htake.imp (fun h => h.1)

/-- C1: whenever the orchestrator reaches the summarizer (an `analyzed`
outcome), the document set it hands over — which is also what it reports as
sources — has size at most `maxSources`, contains no document with
credibility score below `minCredibility`, and contains no two documents whose
Jaccard similarity meets or exceeds the deduplication threshold 0.6. -/
theorem analyzed_sources_invariant (corpus : List Article)
    (s : String → List Article → SummarizerResult) (query : String)
    (options : AnalyzeOptions) (fs : List Article) (resp : AnalyzeResponse)
    (h : analyze corpus s query options = Except.ok (AnalyzeOutcome.analyzed fs resp)) :
    fs.length ≤ options.maxSources ∧
    (∀ a ∈ fs, options.minCredibility ≤ credScore a) ∧
    List.Pairwise (fun a b => jaccardSimilarity (articleText a) (articleText b) < 6/10) fs ∧
    resp.sources = fs.map toSourceSummary := by
  obtain ⟨retrieved, hret, rfl, hsrc⟩ := analyze_analyzed_inv corpus s query options fs resp h
  have hinv := finalSources_invariant options retrieved
  exact ⟨hinv.1, hinv.2.1, hinv.2.2, hsrc⟩

theorem analyzed_sources_witness :
    (finalSources {} wRetrieved).length ≤ ({} : AnalyzeOptions).maxSources ∧
    (∀ a ∈ finalSources {} wRetrieved, ({} : AnalyzeOptions).minCredibility ≤ credScore a) ∧
    List.Pairwise (fun a b => jaccardSimilarity (articleText a) (articleText b) < 6/10)
      (finalSources {} wRetrieved) ∧
    (analyzedResponse wSummarizer "apple earnings" {} wRetrieved).sources
      = (finalSources {} wRetrieved).map toSourceSummary :=
  analyzed_sources_invariant [appleArt] wSummarizer "apple earnings" {}
    (finalSources {} wRetrieved)
    (analyzedResponse wSummarizer "apple earnings" {} wRetrieved)
    (by with_unfolding_all decide)

end Monitor
